import Mathlib

/-!
Verification development for the pathology slide-analysis program (Path.py).

The file shallowly embeds the program's first-party logic:
the PLNM score function `calculate_plnm_score`, the pyramid-level
selection loop `select_optimal_level`, thumbnail generation
`generate_thumbnail`, and the summarization routine `analyze_wsi`
together with its error handling and slide-handle lifecycle.

Fallible library calls (OpenSlide operations, sequence indexing,
division) are modelled in the `Except PyErr` monad; a `Trace` records
whether the slide open was attempted, whether it succeeded, and how
many times `close` was invoked.  The summary dictionary is modelled as
a structure whose optional fields stand for the presence or absence of
the corresponding dictionary keys.
-/

/-- Python-level exceptions that the embedded code can raise or catch. -/
inductive PyErr where
  | openSlideError (msg : String)
  | indexError
  | zeroDivisionError
  | other (ty : String) (msg : String)
deriving DecidableEq

/-- Error message produced by the two except-clauses of `analyze_wsi`:
an `openslide.OpenSlideError` is reported with an OpenSlide prefix, any
other exception with its type name. -/
def errMsg : PyErr → String
  | .openSlideError m => "OpenSlide错误: " ++ m
  | .indexError => "错误: IndexError: tuple index out of range"
  | .zeroDivisionError => "错误: ZeroDivisionError: division by zero"
  | .other t m => "错误: " ++ t ++ ": " ++ m

/-- Python sequence indexing with a non-negative index: raises IndexError
when the index is out of range. -/
def pyGetN {α : Type} (l : List α) (i : Nat) : Except PyErr α :=
  match l[i]? with
  | some a => Except.ok a
  | none => Except.error PyErr.indexError

/-- Python sequence indexing with a possibly negative index
(negative indices count from the end, as in Python). -/
def pyGet {α : Type} (l : List α) (i : Int) : Except PyErr α :=
  let j : Int := if i < 0 then i + l.length else i
  if j < 0 then Except.error PyErr.indexError else pyGetN l j.toNat

/-- A PIL image, abstracted to its pixel dimensions. -/
structure Img where
  width : Nat
  height : Nat
deriving DecidableEq

/-- One entry of the per-level information list built by `analyze_wsi`. -/
structure LevelInfo where
  level : Nat
  width : Nat
  height : Nat
  downsample : ℚ
  total_pixels : Nat
deriving DecidableEq

/-- Behaviour of one opened OpenSlide handle: each slide-library access
either yields a value or raises.  `props` is the slide's property
mapping (an association list), `readRegion` is indexed by the level
argument of `read_region`, and `closeResult` is the outcome of
`close()`. -/
structure SlideB where
  detectFormat : Except PyErr (Option String)
  levelCount : Except PyErr Nat
  levelDims : Except PyErr (List (Nat × Nat))
  levelDownsamples : Except PyErr (List ℚ)
  props : List (String × String)
  readRegion : Int → Except PyErr Unit
  closeResult : Except PyErr Unit

/-- The result dictionary of `analyze_wsi`.  An `Option` field models
the presence or absence of the corresponding dictionary key. -/
structure AnalysisResult where
  success : Bool
  error : Option String := none
  filename : Option String := none
  file_size_gb : Option ℚ := none
  timestamp : Option String := none
  levels : Option (List LevelInfo) := none
  properties : Option (List (String × String)) := none
  thumbnail_generated : Option Bool := none
  format : Option String := none
  level_count : Option Nat := none
  dimensions_level0 : Option (Nat × Nat) := none
  downsamples : Option (List ℚ) := none
  thumbnail : Option Img := none
  thumbnail_size : Option (Nat × Nat) := none
  processing_time : Option ℚ := none
deriving DecidableEq

/-- The two-key dictionary returned on every failure path of
`analyze_wsi`. -/
def failRec (msg : String) : AnalysisResult :=
  { success := false, error := some msg }

/-- Resource-lifecycle trace of one `analyze_wsi` run: whether the
OpenSlide constructor was invoked, whether it returned a handle, and
how many times `close` was invoked on that handle. -/
structure Trace where
  openInvoked : Bool
  openedOk : Bool
  closeCalls : Nat
deriving DecidableEq

/-- The environment of one `analyze_wsi` call: the path argument, the
filesystem's answers, the wall-clock values, the outcome of the
OpenSlide constructor, and the opened handle's behaviour. -/
structure Env where
  path : String
  pathExists : Bool
  sizeBytes : Nat
  timestamp : String
  elapsed : ℚ
  openErr : Option PyErr
  slide : SlideB

/-- os.path.basename for forward-slash paths. -/
def basename (p : String) : String :=
  (p.splitOn "/").getLastD ""

/-- Python's round(x, 2) (round half to even), on exact rationals. -/
def pyRound2 (q : ℚ) : ℚ :=
  let x : ℚ := q * 100
  let f : ℤ := ⌊x⌋
  let frac : ℚ := x - (f : ℚ)
  let n : ℤ :=
    if frac < 1/2 then f
    else if 1/2 < frac then f + 1
    else if f % 2 = 0 then f else f + 1
  (n : ℚ) / 100

/-- calculate_plnm_score from Path.py:
score = lvi*4 + tumor_budding*3 + pdcs_level*2 + histologic_grade2*3 + sm2*1. -/
def calculate_plnm_score (lvi tumor_budding pdcs_level histologic_grade2 sm2 : ℤ) : ℤ :=
  lvi * 4 + tumor_budding * 3 + pdcs_level * 2 + histologic_grade2 * 3 + sm2 * 1

/-- The loop of `select_optimal_level`: iterate i over range(n) (the
second argument counts the remaining iterations), reading
`slide.level_dimensions[i]` each time; return the first index whose
pixel count is within the budget. -/
def selectFrom (s : SlideB) (maxPixels : Nat) : Nat → Nat → Except PyErr (Option Nat)
  | _, 0 => Except.ok none
  | i, Nat.succ k => do
    let dims ← s.levelDims
    let wh ← pyGetN dims i
    if wh.1 * wh.2 ≤ maxPixels then pure (some i)
    else selectFrom s maxPixels (i + 1) k

/-- select_optimal_level from Path.py: scan levels in index order and
return the first whose width*height is at most `maxPixels`; if none
qualifies, return `slide.level_count - 1` (Python integer arithmetic,
hence an `Int`). -/
def select_optimal_level (s : SlideB) (maxPixels : Nat) : Except PyErr Int := do
  let n ← s.levelCount
  match ← selectFrom s maxPixels 0 n with
  | some i => pure (i : Int)
  | none => do
    let n2 ← s.levelCount
    pure ((n2 : Int) - 1)

/-- The body of generate_thumbnail's try-block: read the level size,
read the full region, convert to RGB, and downscale by
ratio = min(max_size/width, max_size/height) when that ratio is
below 1 (dimensions truncated to integers, as Python's int()). -/
def thumbBody (s : SlideB) (level : Int) (maxSize : Nat) : Except PyErr Img := do
  let dims ← s.levelDims
  let wh ← pyGet dims level
  let _ ← s.readRegion level
  if wh.1 = 0 ∨ wh.2 = 0 then Except.error PyErr.zeroDivisionError
  else
    let r : ℚ := min ((maxSize : ℚ) / (wh.1 : ℚ)) ((maxSize : ℚ) / (wh.2 : ℚ))
    if r < 1 then
      pure { width := (⌊(wh.1 : ℚ) * r⌋).toNat, height := (⌊(wh.2 : ℚ) * r⌋).toNat }
    else
      pure { width := wh.1, height := wh.2 }

/-- generate_thumbnail from Path.py: its internal try/except converts
any exception into a `None` result. -/
def generate_thumbnail (s : SlideB) (level : Int) (maxSize : Nat) : Option Img :=
  match thumbBody s level maxSize with
  | .ok im => some im
  | .error _ => none

/-- The fixed allow-list of metadata keys read by `analyze_wsi`. -/
def interestingProperties : List String :=
  ["openslide.mpp-x", "openslide.mpp-y", "openslide.objective-power",
   "openslide.vendor", "openslide.comment", "tiff.ImageDescription"]

/-- The property-collection loop of `analyze_wsi`: keep each
allow-listed key present in the slide's property mapping. -/
def collectProps (ps : List (String × String)) : List (String × String) :=
  interestingProperties.filterMap fun k => (List.lookup k ps).map fun v => (k, v)

/-- The level-information loop of `analyze_wsi`: for i in range(n),
read `level_dimensions[i]` and `level_downsamples[i]` and append a
level record (first argument is the running index, second the number
of remaining iterations). -/
def buildLevelsFrom (dims : List (Nat × Nat)) (ds : List ℚ) :
    Nat → Nat → Except PyErr (List LevelInfo)
  | _, 0 => Except.ok []
  | i, Nat.succ k => do
    let wh ← pyGetN dims i
    let d ← pyGetN ds i
    let rest ← buildLevelsFrom dims ds (i + 1) k
    pure ({ level := i, width := wh.1, height := wh.2, downsample := d,
            total_pixels := wh.1 * wh.2 } :: rest)

/-- The level-information loop of `analyze_wsi`, started at index 0. -/
def buildLevels (dims : List (Nat × Nat)) (ds : List ℚ) (n : Nat) :
    Except PyErr (List LevelInfo) :=
  buildLevelsFrom dims ds 0 n

/-- The portion of `analyze_wsi`'s try-block between a successful open
and the `close()` call: format detection, level metadata, the
allow-listed properties, level selection with the hard-coded budget
2000*2000, thumbnail generation (which never raises), and assembly of
the result dictionary including `processing_time`. -/
def midStep (env : Env) (maxThumb : Nat) : Except PyErr AnalysisResult := do
  let s := env.slide
  let df ← s.detectFormat
  let fmtStr := match df with
    | some f => if f = "" then "Unknown" else f
    | none => "Unknown"
  let n ← s.levelCount
  let dims ← s.levelDims
  let d0 ← pyGetN dims 0
  let ds ← s.levelDownsamples
  let lvls ← buildLevels dims ds n
  let prs := collectProps s.props
  let optLevel ← select_optimal_level s (2000 * 2000)
  let thumb := generate_thumbnail s optLevel maxThumb
  pure { success := true,
         error := none,
         filename := some (basename env.path),
         file_size_gb := some (pyRound2 ((env.sizeBytes : ℚ) / 1024 ^ 3)),
         timestamp := some env.timestamp,
         levels := some lvls,
         properties := some prs,
         thumbnail_generated := some thumb.isSome,
         format := some fmtStr,
         level_count := some n,
         dimensions_level0 := some d0,
         downsamples := some ds,
         thumbnail := thumb,
         thumbnail_size := thumb.map fun im => (im.width, im.height),
         processing_time := some (pyRound2 env.elapsed) }

/-- analyze_wsi from Path.py, with its resource trace: existence and
size checks come first and return failure dictionaries without opening
the slide; then the slide is opened; the body runs; `close()` is
invoked only after the body completed without an exception; any
exception escaping to the except-clauses is the `.error` case of the
first component. -/
def analyze_wsiAux (env : Env) (maxThumb : Nat) :
    Except PyErr AnalysisResult × Trace :=
  if env.pathExists = false then
    (Except.ok (failRec ("文件不存在: " ++ env.path)), ⟨false, false, 0⟩)
  else if (env.sizeBytes : ℚ) / 1024 ^ 3 = 0 then
    (Except.ok (failRec "文件大小为0"), ⟨false, false, 0⟩)
  else
    match env.openErr with
    | some e => (Except.error e, ⟨true, false, 0⟩)
    | none =>
      match midStep env maxThumb with
      | .error e => (Except.error e, ⟨true, true, 0⟩)
      | .ok r =>
        match env.slide.closeResult with
        | .error e => (Except.error e, ⟨true, true, 1⟩)
        | .ok _ => (Except.ok r, ⟨true, true, 1⟩)

/-- analyze_wsi's returned dictionary: the two except-clauses convert
any exception escaping the body into a failure dictionary. -/
def analyze_wsi (env : Env) (maxThumb : Nat) : AnalysisResult :=
  match (analyze_wsiAux env maxThumb).1 with
  | .ok r => r
  | .error e => failRec (errMsg e)

/-- Resource trace of one `analyze_wsi` run. -/
def analyze_wsiTrace (env : Env) (maxThumb : Nat) : Trace :=
  (analyze_wsiAux env maxThumb).2

/-- Pixel count of level i of a dimension list (0 when out of range). -/
def pix (dims : List (Nat × Nat)) (i : Nat) : Nat :=
  (dims.getD i (0, 0)).1 * (dims.getD i (0, 0)).2

/-- The pure value of the selection loop: the first index in
[i, i+k) whose pixel count is within the budget. -/
def firstQualFrom (dims : List (Nat × Nat)) (maxPixels : Nat) : Nat → Nat → Option Nat
  | _, 0 => none
  | i, Nat.succ k =>
    if pix dims i ≤ maxPixels then some i
    else firstQualFrom dims maxPixels (i + 1) k

/-- A synthetic 4-level pyramidal slide with level pixel counts
4,000,000; 1,000,000; 250,000; 62,500. -/
def demoSlide : SlideB :=
  { detectFormat := .ok (some "aperio"),
    levelCount := .ok 4,
    levelDims := .ok [(2000, 2000), (1000, 1000), (500, 500), (250, 250)],
    levelDownsamples := .ok [1, 2, 4, 8],
    props := [],
    readRegion := fun _ => .ok (),
    closeResult := .ok () }

/-- A well-behaved two-level slide. -/
def okSlide : SlideB :=
  { detectFormat := .ok (some "generic-tiff"),
    levelCount := .ok 2,
    levelDims := .ok [(100, 100), (50, 50)],
    levelDownsamples := .ok [1, 2],
    props := [("openslide.vendor", "demo")],
    readRegion := fun _ => .ok (),
    closeResult := .ok () }

/-- An environment in which every step succeeds. -/
def okEnv : Env :=
  { path := "slides/demo.svs",
    pathExists := true,
    sizeBytes := 2048,
    timestamp := "2026-01-01 12:00:00",
    elapsed := 3/2,
    openErr := none,
    slide := okSlide }

/-- An environment whose OpenSlide constructor raises. -/
def openFailEnv : Env :=
  { okEnv with openErr := some (.openSlideError "cannot open") }

/-- An environment that opens fine but whose level-count access raises
mid-extraction. -/
def levelFailEnv : Env :=
  { okEnv with slide := { okSlide with levelCount := .error (.openSlideError "level read failed") } }

/-- An environment whose path does not resolve. -/
def missingEnv : Env :=
  { okEnv with path := "/nonexistent/path", pathExists := false }

/-- A slide whose region reads always raise, so that thumbnail
generation fails while all metadata accesses succeed. -/
def readFailSlide : SlideB :=
  { okSlide with readRegion := fun _ => .error (.openSlideError "read failed") }

/-- An environment in which only the region read fails. -/
def readFailEnv : Env :=
  { okEnv with slide := readFailSlide }

/-- A one-level slide of dimensions 2000 x 1000, for thumbnail tests. -/
def wideSlide : SlideB :=
  { okSlide with
      levelCount := .ok 1,
      levelDims := .ok [(2000, 1000)],
      levelDownsamples := .ok [1] }

theorem pyGetN_ok {α : Type} (l : List α) (i : Nat) (h : i < l.length) :
    pyGetN l i = Except.ok l[i] := by
  simp [pyGetN, List.getElem?_eq_getElem h]

theorem size_cond_iff (n : Nat) : ((n : ℚ) / 1024 ^ 3 = 0) ↔ n = 0 := by
  rw [div_eq_zero_iff]
  norm_num

theorem buildLevelsFrom_ok (dims : List (Nat × Nat)) (ds : List ℚ) :
    ∀ (k i : Nat), i + k ≤ dims.length → i + k ≤ ds.length →
      ∃ out, buildLevelsFrom dims ds i k = Except.ok out := by
  intro k
  induction k with
  | zero => exact fun i _ _ => ⟨[], rfl⟩
  | succ k ih =>
    intro i h1 h2
    obtain ⟨out, hout⟩ := ih (i + 1) (by omega) (by omega)
    rw [buildLevelsFrom]
    simp only [pyGetN_ok dims i (by omega), pyGetN_ok ds i (by omega), bind, Except.bind,
      hout, pure, Except.pure]
    exact ⟨_, rfl⟩

theorem selectFrom_eq (s : SlideB) (b : Nat) (dims : List (Nat × Nat))
    (hd : s.levelDims = .ok dims) :
    ∀ (k i : Nat), i + k ≤ dims.length →
      selectFrom s b i k = Except.ok (firstQualFrom dims b i k) := by
  intro k
  induction k with
  | zero => intro i _; rfl
  | succ k ih =>
    intro i hik
    have hi : i < dims.length := by omega
    have hpix : pix dims i = dims[i].1 * dims[i].2 := by
      simp only [pix]
      rw [List.getD_eq_getElem dims (0, 0) hi]
    rw [selectFrom, firstQualFrom]
    by_cases hc : dims[i].1 * dims[i].2 ≤ b
    · simp [hd, bind, Except.bind, pyGetN_ok dims i hi, hc, hpix, pure, Except.pure]
    · simp only [hd, bind, Except.bind, pyGetN_ok dims i hi, hpix, if_neg hc]
      exact ih (i + 1) (by omega)

theorem select_optimal_level_eq (s : SlideB) (b n : Nat) (dims : List (Nat × Nat))
    (hn : s.levelCount = .ok n) (hd : s.levelDims = .ok dims) (hlen : dims.length = n) :
    select_optimal_level s b =
      Except.ok (match firstQualFrom dims b 0 n with
                 | some i => (i : Int)
                 | none => (n : Int) - 1) := by
  have hsel := selectFrom_eq s b dims hd n 0 (by omega)
  rw [select_optimal_level]
  cases hq : firstQualFrom dims b 0 n <;>
    simp [hn, hsel, hq, bind, Except.bind, pure, Except.pure]

theorem firstQualFrom_some (dims : List (Nat × Nat)) (b : Nat) :
    ∀ (k i j : Nat), firstQualFrom dims b i k = some j →
      i ≤ j ∧ j < i + k ∧ pix dims j ≤ b ∧ ∀ m, i ≤ m → m < j → b < pix dims m := by
  intro k
  induction k with
  | zero => intro i j h; simp [firstQualFrom] at h
  | succ k ih =>
    intro i j h
    rw [firstQualFrom] at h
    by_cases hc : pix dims i ≤ b
    · rw [if_pos hc] at h
      cases h
      exact ⟨Nat.le_refl _, by omega, hc, fun m h1 h2 => by omega⟩
    · rw [if_neg hc] at h
      obtain ⟨h1, h2, h3, h4⟩ := ih (i + 1) j h
      refine ⟨by omega, by omega, h3, fun m hm1 hm2 => ?_⟩
      rcases Nat.eq_or_lt_of_le hm1 with rfl | hlt
      · exact Nat.lt_of_not_le hc
      · exact h4 m hlt hm2

theorem firstQualFrom_none (dims : List (Nat × Nat)) (b : Nat) :
    ∀ (k i : Nat), firstQualFrom dims b i k = none →
      ∀ m, i ≤ m → m < i + k → b < pix dims m := by
  intro k
  induction k with
  | zero => intro i _ m _ _; omega
  | succ k ih =>
    intro i h m hm1 hm2
    rw [firstQualFrom] at h
    by_cases hc : pix dims i ≤ b
    · rw [if_pos hc] at h; cases h
    · rw [if_neg hc] at h
      rcases Nat.eq_or_lt_of_le hm1 with rfl | hlt
      · exact Nat.lt_of_not_le hc
      · exact ih (i + 1) h m hlt (by omega)

theorem firstQualFrom_mono (dims : List (Nat × Nat)) {b1 b2 : Nat} (hb : b1 ≤ b2) :
    ∀ (k i j1 : Nat), firstQualFrom dims b1 i k = some j1 →
      ∃ j2, firstQualFrom dims b2 i k = some j2 ∧ j2 ≤ j1 := by
  intro k
  induction k with
  | zero => intro i j1 h; simp [firstQualFrom] at h
  | succ k ih =>
    intro i j1 h
    rw [firstQualFrom] at h
    by_cases hc1 : pix dims i ≤ b1
    · rw [if_pos hc1] at h
      cases h
      exact ⟨i, by rw [firstQualFrom, if_pos (Nat.le_trans hc1 hb)], Nat.le_refl i⟩
    · rw [if_neg hc1] at h
      by_cases hc2 : pix dims i ≤ b2
      · refine ⟨i, by rw [firstQualFrom, if_pos hc2], ?_⟩
        obtain ⟨h1, _, _, _⟩ := firstQualFrom_some dims b1 k (i + 1) j1 h
        omega
      · obtain ⟨j2, hj2, hle⟩ := ih (i + 1) j1 h
        exact ⟨j2, by rw [firstQualFrom, if_neg hc2]; exact hj2, hle⟩

theorem generate_thumbnail_none (s : SlideB) (dims : List (Nat × Nat)) (lv : Int)
    (m : Nat) (er : PyErr) (hd : s.levelDims = .ok dims)
    (hr : ∀ i, s.readRegion i = .error er) :
    generate_thumbnail s lv m = none := by
  rw [generate_thumbnail, thumbBody]
  cases hg : pyGet dims lv <;>
    simp [hd, hg, hr, bind, Except.bind]

theorem midStep_ok_shape (env : Env) (m : Nat) (r : AnalysisResult)
    (h : midStep env m = .ok r) :
    r.success = true ∧ r.error = none ∧ r.filename.isSome ∧ r.file_size_gb.isSome ∧
    r.timestamp.isSome ∧ r.levels.isSome ∧ r.properties.isSome ∧
    r.thumbnail_generated.isSome ∧ r.format.isSome ∧ r.level_count.isSome ∧
    r.dimensions_level0.isSome ∧ r.downsamples.isSome ∧ r.processing_time.isSome ∧
    (r.thumbnail.isSome ↔ r.thumbnail_generated = some true) ∧
    (r.thumbnail_size.isSome ↔ r.thumbnail_generated = some true) := by
  rw [midStep] at h
  simp only [bind, Except.bind] at h
  cases hdf : env.slide.detectFormat <;> simp only [hdf] at h <;>
    try exact Except.noConfusion h
  rename_i df
  cases hn : env.slide.levelCount <;> simp only [hn] at h <;>
    try exact Except.noConfusion h
  rename_i n
  cases hd : env.slide.levelDims <;> simp only [hd] at h <;>
    try exact Except.noConfusion h
  rename_i dims
  cases h0 : pyGetN dims 0 <;> simp only [h0] at h <;>
    try exact Except.noConfusion h
  cases hds : env.slide.levelDownsamples <;> simp only [hds] at h <;>
    try exact Except.noConfusion h
  rename_i ds
  cases hbl : buildLevels dims ds n <;> simp only [hbl] at h <;>
    try exact Except.noConfusion h
  cases hsel : select_optimal_level env.slide (2000 * 2000) <;> simp only [hsel] at h <;>
    try exact Except.noConfusion h
  rename_i lv
  simp only [pure, Except.pure, Except.ok.injEq] at h
  subst h
  cases ht : generate_thumbnail env.slide lv m <;>
    simp [ht, Option.isSome]

/-- The record produced by a fully successful run on `okEnv`. -/
def okEnvRec : AnalysisResult :=
  { success := true, error := none, filename := some (basename "slides/demo.svs"),
    file_size_gb := some (pyRound2 ((2048 : ℚ) / 1024 ^ 3)),
    timestamp := some "2026-01-01 12:00:00",
    levels := some [⟨0, 100, 100, 1, 10000⟩, ⟨1, 50, 50, 2, 2500⟩],
    properties := some [("openslide.vendor", "demo")],
    thumbnail_generated := some true, format := some "generic-tiff",
    level_count := some 2, dimensions_level0 := some (100, 100),
    downsamples := some [1, 2], thumbnail := some ⟨100, 100⟩,
    thumbnail_size := some (100, 100),
    processing_time := some (pyRound2 (3 / 2)) }

theorem okEnv_eval : analyze_wsiAux okEnv 800 = (Except.ok okEnvRec, ⟨true, true, 1⟩) := by
  have h : ¬ (((2048 : Nat) : ℚ) / 1024 ^ 3 = 0) := by norm_num
  have hlt : ¬ ((800 : ℚ) / 100 < 1) := by norm_num
  simp [analyze_wsiAux, okEnv, okSlide, h, midStep, bind, Except.bind, pure, Except.pure,
    select_optimal_level, selectFrom, pyGetN, buildLevels, buildLevelsFrom,
    generate_thumbnail, thumbBody, pyGet, hlt, collectProps, interestingProperties,
    List.lookup, okEnvRec]

/-- The record produced on `readFailEnv`, where only the region read fails. -/
def readFailRec : AnalysisResult :=
  { okEnvRec with thumbnail_generated := some false, thumbnail := none,
                  thumbnail_size := none }

theorem readFailEnv_eval :
    analyze_wsiAux readFailEnv 800 = (Except.ok readFailRec, ⟨true, true, 1⟩) := by
  have h : ¬ (((2048 : Nat) : ℚ) / 1024 ^ 3 = 0) := by norm_num
  simp [analyze_wsiAux, readFailEnv, readFailSlide, okEnv, okSlide, h, midStep, bind,
    Except.bind, pure, Except.pure, select_optimal_level, selectFrom, pyGetN, buildLevels,
    buildLevelsFrom, generate_thumbnail, thumbBody, pyGet, collectProps,
    interestingProperties, List.lookup, readFailRec, okEnvRec]

theorem openFailEnv_eval :
    analyze_wsiAux openFailEnv 800 =
      (Except.error (.openSlideError "cannot open"), ⟨true, false, 0⟩) := by
  have h : ¬ (((2048 : Nat) : ℚ) / 1024 ^ 3 = 0) := by norm_num
  simp [analyze_wsiAux, openFailEnv, okEnv, h]

theorem levelFailEnv_eval :
    analyze_wsiAux levelFailEnv 800 =
      (Except.error (.openSlideError "level read failed"), ⟨true, true, 0⟩) := by
  have h : ¬ (((2048 : Nat) : ℚ) / 1024 ^ 3 = 0) := by norm_num
  simp [analyze_wsiAux, levelFailEnv, okEnv, okSlide, h, midStep, bind, Except.bind]

theorem analyze_wsiAux_cases (env : Env) (m : Nat) :
    (env.pathExists = false ∧
      analyze_wsiAux env m =
        (Except.ok (failRec ("文件不存在: " ++ env.path)), ⟨false, false, 0⟩)) ∨
    (env.pathExists = true ∧ env.sizeBytes = 0 ∧
      analyze_wsiAux env m = (Except.ok (failRec "文件大小为0"), ⟨false, false, 0⟩)) ∨
    (env.pathExists = true ∧ env.sizeBytes ≠ 0 ∧ ∃ e, env.openErr = some e ∧
      analyze_wsiAux env m = (Except.error e, ⟨true, false, 0⟩)) ∨
    (env.pathExists = true ∧ env.sizeBytes ≠ 0 ∧ env.openErr = none ∧
      ((∃ e, midStep env m = .error e ∧
          analyze_wsiAux env m = (Except.error e, ⟨true, true, 0⟩)) ∨
       (∃ r, midStep env m = .ok r ∧
         ((∃ e, env.slide.closeResult = .error e ∧
             analyze_wsiAux env m = (Except.error e, ⟨true, true, 1⟩)) ∨
          (env.slide.closeResult = .ok () ∧
             analyze_wsiAux env m = (Except.ok r, ⟨true, true, 1⟩)))))) := by
  by_cases hp : env.pathExists = false
  · exact Or.inl ⟨hp, by rw [analyze_wsiAux, if_pos hp]⟩
  · have hp' : env.pathExists = true := by
      cases henv : env.pathExists
      · exact absurd henv hp
      · rfl
    by_cases hz : (env.sizeBytes : ℚ) / 1024 ^ 3 = 0
    · refine Or.inr (Or.inl ⟨hp', (size_cond_iff env.sizeBytes).mp hz, ?_⟩)
      rw [analyze_wsiAux, if_neg hp, if_pos hz]
    · have hz' : env.sizeBytes ≠ 0 := fun h0 => hz ((size_cond_iff env.sizeBytes).mpr h0)
      cases ho : env.openErr with
      | some e =>
        refine Or.inr (Or.inr (Or.inl ⟨hp', hz', e, rfl, ?_⟩))
        rw [analyze_wsiAux, if_neg hp, if_neg hz, ho]
      | none =>
        refine Or.inr (Or.inr (Or.inr ⟨hp', hz', rfl, ?_⟩))
        cases hmid : midStep env m with
        | error e =>
          refine Or.inl ⟨e, rfl, ?_⟩
          rw [analyze_wsiAux, if_neg hp, if_neg hz, ho, hmid]
        | ok r =>
          refine Or.inr ⟨r, rfl, ?_⟩
          cases hcl : env.slide.closeResult with
          | error e =>
            refine Or.inl ⟨e, rfl, ?_⟩
            rw [analyze_wsiAux, if_neg hp, if_neg hz, ho, hmid, hcl]
          | ok u =>
            cases u
            refine Or.inr ⟨rfl, ?_⟩
            rw [analyze_wsiAux, if_neg hp, if_neg hz, ho, hmid, hcl]

/-- C1: for binary inputs, calculate_plnm_score returns exactly
4*lvi + 3*tumorBudding + 2*pdcsLevel + 3*histologicGrade2 + 1*sm2;
consequently the result lies in [0, 13], and the three quoted
evaluations (all ones gives 13, all zeros gives 0, lvi alone gives 4)
hold. -/
theorem calculate_plnm_score_binary_spec (a b c d e : ℤ)
    (ha : a = 0 ∨ a = 1) (hb : b = 0 ∨ b = 1) (hc : c = 0 ∨ c = 1)
    (hd : d = 0 ∨ d = 1) (he : e = 0 ∨ e = 1) :
    calculate_plnm_score a b c d e = 4 * a + 3 * b + 2 * c + 3 * d + 1 * e ∧
    0 ≤ calculate_plnm_score a b c d e ∧ calculate_plnm_score a b c d e ≤ 13 ∧
    calculate_plnm_score 1 1 1 1 1 = 13 ∧
    calculate_plnm_score 0 0 0 0 0 = 0 ∧
    calculate_plnm_score 1 0 0 0 0 = 4 := by
  refine ⟨by unfold calculate_plnm_score; ring, ?_, ?_, by decide, by decide, by decide⟩ <;>
  · rcases ha with rfl | rfl <;> rcases hb with rfl | rfl <;> rcases hc with rfl | rfl <;>
      rcases hd with rfl | rfl <;> rcases he with rfl | rfl <;> decide

/-- Witness for C1 at the input (1, 1, 0, 1, 0). -/
theorem calculate_plnm_score_binary_spec_witness :
    ((1 : ℤ) = 0 ∨ (1 : ℤ) = 1) ∧
    (calculate_plnm_score 1 1 0 1 0 = 4 * 1 + 3 * 1 + 2 * 0 + 3 * 1 + 1 * 0 ∧
     0 ≤ calculate_plnm_score 1 1 0 1 0 ∧ calculate_plnm_score 1 1 0 1 0 ≤ 13 ∧
     calculate_plnm_score 1 1 1 1 1 = 13 ∧
     calculate_plnm_score 0 0 0 0 0 = 0 ∧
     calculate_plnm_score 1 0 0 0 0 = 4) :=
  ⟨Or.inr rfl,
   calculate_plnm_score_binary_spec 1 1 0 1 0 (Or.inr rfl) (Or.inr rfl) (Or.inl rfl)
     (Or.inr rfl) (Or.inl rfl)⟩

/-- C10: calculate_plnm_score performs no input validation: on all
integer inputs, also outside 0/1, it returns exactly the linear
combination, with no clamping or error. -/
theorem calculate_plnm_score_unvalidated_linear (a b c d e : ℤ) :
    calculate_plnm_score a b c d e = 4 * a + 3 * b + 2 * c + 3 * d + e := by
  unfold calculate_plnm_score
  ring

/-- C2: on a slide with a consistent level sequence of length n at
least 1 and a positive budget, select_optimal_level returns the first
index whose pixel count is within the budget, or the last index when
none is; the returned index is always valid; and on the synthetic
4-level pyramid, budget 1,000,000 selects level 1 and budget 100
selects level 3. -/
theorem select_optimal_level_first_fit (s : SlideB) (n : Nat) (dims : List (Nat × Nat))
    (budget : Nat) (hn : s.levelCount = .ok n) (hd : s.levelDims = .ok dims)
    (hlen : dims.length = n) (hpos : 1 ≤ n) (hb : 0 < budget) :
    (∃ i : Nat, select_optimal_level s budget = .ok (i : Int) ∧ i < n ∧
      ((pix dims i ≤ budget ∧ ∀ j, j < i → budget < pix dims j) ∨
       (i = n - 1 ∧ ∀ j, j < n → budget < pix dims j))) ∧
    select_optimal_level demoSlide 1000000 = .ok 1 ∧
    select_optimal_level demoSlide 100 = .ok 3 := by
  refine ⟨?_, rfl, rfl⟩
  rw [select_optimal_level_eq s budget n dims hn hd hlen]
  cases hq : firstQualFrom dims budget 0 n with
  | some i =>
    obtain ⟨-, h2, h3, h4⟩ := firstQualFrom_some dims budget n 0 i hq
    exact ⟨i, rfl, by omega, Or.inl ⟨h3, fun j hj => h4 j (Nat.zero_le j) hj⟩⟩
  | none =>
    have hall := firstQualFrom_none dims budget n 0 hq
    have hcast : ((n - 1 : Nat) : Int) = (n : Int) - 1 := by omega
    exact ⟨n - 1, by rw [hcast], by omega,
      Or.inr ⟨rfl, fun j hj => hall j (Nat.zero_le j) (by omega)⟩⟩

/-- Witness for C2 on the synthetic 4-level pyramid with budget
1,000,000. -/
theorem select_optimal_level_first_fit_witness :
    demoSlide.levelCount = .ok 4 ∧
    ((∃ i : Nat, select_optimal_level demoSlide 1000000 = .ok (i : Int) ∧ i < 4 ∧
      ((pix [(2000, 2000), (1000, 1000), (500, 500), (250, 250)] i ≤ 1000000 ∧
        ∀ j, j < i →
          1000000 < pix [(2000, 2000), (1000, 1000), (500, 500), (250, 250)] j) ∨
       (i = 4 - 1 ∧ ∀ j, j < 4 →
          1000000 < pix [(2000, 2000), (1000, 1000), (500, 500), (250, 250)] j))) ∧
     select_optimal_level demoSlide 1000000 = .ok 1 ∧
     select_optimal_level demoSlide 100 = .ok 3) :=
  ⟨rfl,
   select_optimal_level_first_fit demoSlide 4
     [(2000, 2000), (1000, 1000), (500, 500), (250, 250)] 1000000 rfl rfl rfl
     (by decide) (by decide)⟩

/-- C5: with a consistent level sequence whose pixel counts are
non-increasing, enlarging the budget never increases the selected
index. -/
theorem select_optimal_level_budget_mono (s : SlideB) (n : Nat) (dims : List (Nat × Nat))
    (b1 b2 : Nat) (hn : s.levelCount = .ok n) (hd : s.levelDims = .ok dims)
    (hlen : dims.length = n)
    (hmono : ∀ j, j < n → ∀ i, i ≤ j → pix dims j ≤ pix dims i)
    (hb : b1 ≤ b2) :
    ∃ i1 i2 : Int, select_optimal_level s b1 = .ok i1 ∧
      select_optimal_level s b2 = .ok i2 ∧ i2 ≤ i1 := by
  rw [select_optimal_level_eq s b1 n dims hn hd hlen,
      select_optimal_level_eq s b2 n dims hn hd hlen]
  cases h1 : firstQualFrom dims b1 0 n with
  | some j1 =>
    obtain ⟨j2, hj2, hle⟩ := firstQualFrom_mono dims hb n 0 j1 h1
    rw [hj2]
    exact ⟨j1, j2, rfl, rfl, by exact_mod_cast hle⟩
  | none =>
    cases h2 : firstQualFrom dims b2 0 n with
    | some j2 =>
      obtain ⟨-, hlt, -, -⟩ := firstQualFrom_some dims b2 n 0 j2 h2
      exact ⟨(n : Int) - 1, j2, rfl, rfl, by omega⟩
    | none => exact ⟨(n : Int) - 1, (n : Int) - 1, rfl, rfl, le_refl _⟩

/-- Witness for C5 on the synthetic 4-level pyramid with budgets 100
and 1,000,000. -/
theorem select_optimal_level_budget_mono_witness :
    (100 ≤ 1000000) ∧
    ∃ i1 i2 : Int, select_optimal_level demoSlide 100 = .ok i1 ∧
      select_optimal_level demoSlide 1000000 = .ok i2 ∧ i2 ≤ i1 :=
  ⟨by decide,
   select_optimal_level_budget_mono demoSlide 4
     [(2000, 2000), (1000, 1000), (500, 500), (250, 250)] 100 1000000 rfl rfl rfl
     (by decide) (by decide)⟩

/-- C3: any exception escaping the body of analyze_wsi is caught by
its except-clauses and converted into a success=false dictionary
carrying a human-readable error string; the caller receives the
dictionary, never the exception. -/
theorem analyze_wsi_catches_all (env : Env) (m : Nat) (e : PyErr)
    (h : (analyze_wsiAux env m).1 = .error e) :
    analyze_wsi env m = failRec (errMsg e) := by
  rw [analyze_wsi, h]

/-- Witness for C3 on an environment whose OpenSlide constructor
raises. -/
theorem analyze_wsi_catches_all_witness :
    (analyze_wsiAux openFailEnv 800).1 = .error (.openSlideError "cannot open") ∧
    analyze_wsi openFailEnv 800 = failRec (errMsg (.openSlideError "cannot open")) :=
  ⟨by simp [openFailEnv_eval],
   analyze_wsi_catches_all openFailEnv 800 (.openSlideError "cannot open")
     (by simp [openFailEnv_eval])⟩

/-- C4 counterexample: an execution in which the slide opens
successfully, the level-count access then raises, and close is never
invoked — refuting the claim that the handle is closed exactly once on
every exit path that follows a successful open. -/
theorem analyze_wsi_close_skipped_on_error :
    (analyze_wsiTrace levelFailEnv 800).openedOk = true ∧
    (analyze_wsiTrace levelFailEnv 800).closeCalls = 0 ∧
    (analyze_wsi levelFailEnv 800).success = false := by
  simp [analyze_wsiTrace, analyze_wsi, levelFailEnv_eval, failRec]

/-- C4 amended: after a successful open, close is invoked (exactly
once) if and only if the body between open and close completes without
an exception; in particular close is invoked exactly once on every
success=true outcome, while an exception raised during metadata
extraction or level selection leaves the handle unclosed. -/
theorem analyze_wsi_close_iff_body_ok (env : Env) (m : Nat)
    (hop : (analyze_wsiTrace env m).openedOk = true) :
    ((analyze_wsiTrace env m).closeCalls = 1 ↔ ∃ r, midStep env m = .ok r) ∧
    ((analyze_wsi env m).success = true → (analyze_wsiTrace env m).closeCalls = 1) := by
  rcases analyze_wsiAux_cases env m with ⟨hp, hE⟩ | ⟨hp, hz, hE⟩ |
    ⟨hp, hz, e, ho, hE⟩ | ⟨hp, hz, ho, hrest⟩
  · rw [analyze_wsiTrace, hE] at hop
    simp at hop
  · rw [analyze_wsiTrace, hE] at hop
    simp at hop
  · rw [analyze_wsiTrace, hE] at hop
    simp at hop
  · rcases hrest with ⟨e, hmid, hE⟩ | ⟨r, hmid, ⟨e, hcl, hE⟩ | ⟨hcl, hE⟩⟩
    · constructor
      · simp [analyze_wsiTrace, hE, hmid]
      · simp [analyze_wsi, hE, failRec]
    · constructor
      · simp only [analyze_wsiTrace, hE]
        exact ⟨fun _ => ⟨r, hmid⟩, fun _ => trivial⟩
      · simp [analyze_wsiTrace, hE]
    · constructor
      · simp only [analyze_wsiTrace, hE]
        exact ⟨fun _ => ⟨r, hmid⟩, fun _ => trivial⟩
      · simp [analyze_wsiTrace, hE]

/-- Witness for C4 amended on the fully successful environment. -/
theorem analyze_wsi_close_iff_body_ok_witness :
    (analyze_wsiTrace okEnv 800).openedOk = true ∧
    (((analyze_wsiTrace okEnv 800).closeCalls = 1 ↔ ∃ r, midStep okEnv 800 = .ok r) ∧
     ((analyze_wsi okEnv 800).success = true →
       (analyze_wsiTrace okEnv 800).closeCalls = 1)) :=
  ⟨by simp [analyze_wsiTrace, okEnv_eval],
   analyze_wsi_close_iff_body_ok okEnv 800 (by simp [analyze_wsiTrace, okEnv_eval])⟩

/-- C7: analyze_wsi checks existence and size before any open: a
non-resolving path yields the missing-file failure dictionary, a
0-byte file yields the empty-file failure dictionary, and in both
cases the OpenSlide constructor is never invoked. -/
theorem analyze_wsi_prechecks_before_open (env : Env) (m : Nat) :
    (env.pathExists = false →
      analyze_wsi env m = failRec ("文件不存在: " ++ env.path) ∧
      (analyze_wsiTrace env m).openInvoked = false) ∧
    (env.pathExists = true → env.sizeBytes = 0 →
      analyze_wsi env m = failRec "文件大小为0" ∧
      (analyze_wsiTrace env m).openInvoked = false) := by
  constructor
  · intro hp
    have hE : analyze_wsiAux env m =
        (Except.ok (failRec ("文件不存在: " ++ env.path)), ⟨false, false, 0⟩) := by
      rw [analyze_wsiAux, if_pos hp]
    simp [analyze_wsi, analyze_wsiTrace, hE]
  · intro hp hz
    have hc : ((env.sizeBytes : ℚ) / 1024 ^ 3 = 0) := (size_cond_iff env.sizeBytes).mpr hz
    have hE : analyze_wsiAux env m =
        (Except.ok (failRec "文件大小为0"), ⟨false, false, 0⟩) := by
      rw [analyze_wsiAux, if_neg (by simp [hp]), if_pos hc]
    simp [analyze_wsi, analyze_wsiTrace, hE]

/-- Witness for C7 on a path that does not resolve. -/
theorem analyze_wsi_prechecks_before_open_witness :
    missingEnv.pathExists = false ∧
    (analyze_wsi missingEnv 800 = failRec ("文件不存在: " ++ missingEnv.path) ∧
     (analyze_wsiTrace missingEnv 800).openInvoked = false) :=
  ⟨rfl, (analyze_wsi_prechecks_before_open missingEnv 800).1 rfl⟩

/-- C6: for a source level of positive dimensions (w, h) and a
positive bound, the thumbnail is produced with scale factor
min(bound/w, bound/h); when that factor is at least 1 no resize
happens and the output equals (w, h); otherwise the output is the
exact proportional scaling rounded down within one pixel, never
upscaled, and neither output dimension exceeds the bound. -/
theorem generate_thumbnail_bounds (s : SlideB) (dims : List (Nat × Nat)) (level : Int)
    (w h m : Nat) (hd : s.levelDims = .ok dims) (hg : pyGet dims level = .ok (w, h))
    (hr : s.readRegion level = .ok ()) (hw : 0 < w) (hh : 0 < h) (hm : 0 < m) :
    (1 ≤ min ((m : ℚ) / w) ((m : ℚ) / h) →
      generate_thumbnail s level m = some ⟨w, h⟩) ∧
    (min ((m : ℚ) / w) ((m : ℚ) / h) < 1 →
      ∃ im : Img, generate_thumbnail s level m = some im ∧
        im.width ≤ w ∧ im.height ≤ h ∧ im.width ≤ m ∧ im.height ≤ m ∧
        (im.width : ℚ) ≤ w * min ((m : ℚ) / w) ((m : ℚ) / h) ∧
        (w : ℚ) * min ((m : ℚ) / w) ((m : ℚ) / h) < im.width + 1 ∧
        (im.height : ℚ) ≤ h * min ((m : ℚ) / w) ((m : ℚ) / h) ∧
        (h : ℚ) * min ((m : ℚ) / w) ((m : ℚ) / h) < im.height + 1) := by
  have hz : ¬(w = 0 ∨ h = 0) := by omega
  have htb : thumbBody s level m =
      (if min ((m : ℚ) / w) ((m : ℚ) / h) < 1 then
        Except.ok ⟨(⌊(w : ℚ) * min ((m : ℚ) / w) ((m : ℚ) / h)⌋).toNat,
                   (⌊(h : ℚ) * min ((m : ℚ) / w) ((m : ℚ) / h)⌋).toNat⟩
      else Except.ok ⟨w, h⟩) := by
    rw [thumbBody]
    simp only [bind, Except.bind, hd, hg, hr, if_neg hz, pure, Except.pure]
  constructor
  · intro h1
    rw [generate_thumbnail, htb, if_neg (not_lt.mpr h1)]
  · intro h1
    set r : ℚ := min ((m : ℚ) / w) ((m : ℚ) / h) with hrdef
    have hw0 : (0 : ℚ) < w := by exact_mod_cast hw
    have hh0 : (0 : ℚ) < h := by exact_mod_cast hh
    have hr0 : 0 ≤ r := le_min (by positivity) (by positivity)
    have hwr0 : 0 ≤ (w : ℚ) * r := mul_nonneg hw0.le hr0
    have hhr0 : 0 ≤ (h : ℚ) * r := mul_nonneg hh0.le hr0
    have hfw : 0 ≤ ⌊(w : ℚ) * r⌋ := Int.floor_nonneg.mpr hwr0
    have hfh : 0 ≤ ⌊(h : ℚ) * r⌋ := Int.floor_nonneg.mpr hhr0
    have hcw : (((⌊(w : ℚ) * r⌋).toNat : ℚ)) = ((⌊(w : ℚ) * r⌋ : ℤ) : ℚ) := by
      exact_mod_cast Int.toNat_of_nonneg hfw
    have hch : (((⌊(h : ℚ) * r⌋).toNat : ℚ)) = ((⌊(h : ℚ) * r⌋ : ℤ) : ℚ) := by
      exact_mod_cast Int.toNat_of_nonneg hfh
    have hwm : (w : ℚ) * r ≤ m := by
      calc (w : ℚ) * r ≤ (w : ℚ) * ((m : ℚ) / w) :=
            mul_le_mul_of_nonneg_left (min_le_left _ _) hw0.le
        _ = m := by field_simp
    have hhm : (h : ℚ) * r ≤ m := by
      calc (h : ℚ) * r ≤ (h : ℚ) * ((m : ℚ) / h) :=
            mul_le_mul_of_nonneg_left (min_le_right _ _) hh0.le
        _ = m := by field_simp
    have hwlt : (w : ℚ) * r < w := by
      calc (w : ℚ) * r < (w : ℚ) * 1 := mul_lt_mul_of_pos_left h1 hw0
        _ = w := mul_one _
    have hhlt : (h : ℚ) * r < h := by
      calc (h : ℚ) * r < (h : ℚ) * 1 := mul_lt_mul_of_pos_left h1 hh0
        _ = h := mul_one _
    have him : generate_thumbnail s level m =
        some ⟨(⌊(w : ℚ) * r⌋).toNat, (⌊(h : ℚ) * r⌋).toNat⟩ := by
      rw [generate_thumbnail, htb, if_pos h1]
    refine ⟨_, him, ?_, ?_, ?_, ?_, ?_, ?_, ?_, ?_⟩
    · show (⌊(w : ℚ) * r⌋).toNat ≤ w
      have hq : (((⌊(w : ℚ) * r⌋).toNat : ℚ)) < w := by
        rw [hcw]; exact lt_of_le_of_lt (Int.floor_le _) hwlt
      exact_mod_cast hq.le
    · show (⌊(h : ℚ) * r⌋).toNat ≤ h
      have hq : (((⌊(h : ℚ) * r⌋).toNat : ℚ)) < h := by
        rw [hch]; exact lt_of_le_of_lt (Int.floor_le _) hhlt
      exact_mod_cast hq.le
    · show (⌊(w : ℚ) * r⌋).toNat ≤ m
      have hq : (((⌊(w : ℚ) * r⌋).toNat : ℚ)) ≤ m := by
        rw [hcw]; exact le_trans (Int.floor_le _) hwm
      exact_mod_cast hq
    · show (⌊(h : ℚ) * r⌋).toNat ≤ m
      have hq : (((⌊(h : ℚ) * r⌋).toNat : ℚ)) ≤ m := by
        rw [hch]; exact le_trans (Int.floor_le _) hhm
      exact_mod_cast hq
    · show (((⌊(w : ℚ) * r⌋).toNat : ℚ)) ≤ (w : ℚ) * r
      rw [hcw]; exact Int.floor_le _
    · show (w : ℚ) * r < (((⌊(w : ℚ) * r⌋).toNat : ℚ)) + 1
      rw [hcw]; exact Int.lt_floor_add_one _
    · show (((⌊(h : ℚ) * r⌋).toNat : ℚ)) ≤ (h : ℚ) * r
      rw [hch]; exact Int.floor_le _
    · show (h : ℚ) * r < (((⌊(h : ℚ) * r⌋).toNat : ℚ)) + 1
      rw [hch]; exact Int.lt_floor_add_one _

/-- Witness for C6 on a 2000 x 1000 level with bound 800 (downscale
branch). -/
theorem generate_thumbnail_bounds_witness :
    (min (((800 : Nat) : ℚ) / ((2000 : Nat) : ℚ)) (((800 : Nat) : ℚ) / ((1000 : Nat) : ℚ)) < 1) ∧
    (∃ im : Img, generate_thumbnail wideSlide 0 800 = some im ∧
      im.width ≤ 2000 ∧ im.height ≤ 1000 ∧ im.width ≤ 800 ∧ im.height ≤ 800 ∧
      (im.width : ℚ) ≤ ((2000 : Nat) : ℚ) *
        min (((800 : Nat) : ℚ) / ((2000 : Nat) : ℚ)) (((800 : Nat) : ℚ) / ((1000 : Nat) : ℚ)) ∧
      ((2000 : Nat) : ℚ) *
        min (((800 : Nat) : ℚ) / ((2000 : Nat) : ℚ)) (((800 : Nat) : ℚ) / ((1000 : Nat) : ℚ)) <
        im.width + 1 ∧
      (im.height : ℚ) ≤ ((1000 : Nat) : ℚ) *
        min (((800 : Nat) : ℚ) / ((2000 : Nat) : ℚ)) (((800 : Nat) : ℚ) / ((1000 : Nat) : ℚ)) ∧
      ((1000 : Nat) : ℚ) *
        min (((800 : Nat) : ℚ) / ((2000 : Nat) : ℚ)) (((800 : Nat) : ℚ) / ((1000 : Nat) : ℚ)) <
        im.height + 1) :=
  ⟨by norm_num,
   (generate_thumbnail_bounds wideSlide [(2000, 1000)] 0 2000 1000 800 rfl rfl rfl
      (by decide) (by decide) (by decide)).2 (by norm_num)⟩

/-- C8: preview failure is non-fatal: when the slide opens, every
metadata access succeeds, region reads raise (so thumbnail generation
fails internally), and close succeeds, analyze_wsi still returns a
success=true record carrying the full metadata, with the
thumbnail-generated flag false and no thumbnail or thumbnail-size
key. -/
theorem analyze_wsi_preview_failure_nonfatal (env : Env) (m : Nat) (df : Option String)
    (n : Nat) (dims : List (Nat × Nat)) (ds : List ℚ) (er : PyErr)
    (hp : env.pathExists = true) (hz : env.sizeBytes ≠ 0) (ho : env.openErr = none)
    (hdf : env.slide.detectFormat = .ok df) (hn : env.slide.levelCount = .ok n)
    (hd : env.slide.levelDims = .ok dims) (hlen : dims.length = n) (hpos : 1 ≤ n)
    (hds : env.slide.levelDownsamples = .ok ds) (hdslen : ds.length = n)
    (hr : ∀ i, env.slide.readRegion i = .error er)
    (hcl : env.slide.closeResult = .ok ()) :
    (analyze_wsi env m).success = true ∧
    (analyze_wsi env m).thumbnail_generated = some false ∧
    (analyze_wsi env m).thumbnail = none ∧
    (analyze_wsi env m).thumbnail_size = none ∧
    (analyze_wsi env m).levels.isSome ∧
    (analyze_wsi env m).properties = some (collectProps env.slide.props) ∧
    (analyze_wsi env m).filename = some (basename env.path) ∧
    (analyze_wsi env m).file_size_gb.isSome ∧
    (analyze_wsi env m).level_count = some n ∧
    (analyze_wsi env m).dimensions_level0.isSome ∧
    (analyze_wsi env m).downsamples = some ds ∧
    (analyze_wsi env m).timestamp = some env.timestamp ∧
    (analyze_wsi env m).processing_time.isSome := by
  obtain ⟨lvls, hlv⟩ := buildLevelsFrom_ok dims ds n 0 (by omega) (by omega)
  have hsel := select_optimal_level_eq env.slide (2000 * 2000) n dims hn hd hlen
  have hth : generate_thumbnail env.slide
      (match firstQualFrom dims (2000 * 2000) 0 n with
       | some i => (i : Int) | none => (n : Int) - 1) m = none :=
    generate_thumbnail_none env.slide dims _ m er hd hr
  obtain ⟨d0, hd0⟩ : ∃ d, pyGetN dims 0 = .ok d := ⟨_, pyGetN_ok dims 0 (by omega)⟩
  obtain ⟨R, hmid, hRf⟩ : ∃ R, midStep env m = .ok R ∧
      (R.success = true ∧ R.thumbnail_generated = some false ∧ R.thumbnail = none ∧
       R.thumbnail_size = none ∧ R.levels.isSome ∧
       R.properties = some (collectProps env.slide.props) ∧
       R.filename = some (basename env.path) ∧ R.file_size_gb.isSome ∧
       R.level_count = some n ∧ R.dimensions_level0.isSome ∧
       R.downsamples = some ds ∧ R.timestamp = some env.timestamp ∧
       R.processing_time.isSome) := by
    refine ⟨{ success := true, error := none,
              filename := some (basename env.path),
              file_size_gb := some (pyRound2 ((env.sizeBytes : ℚ) / 1024 ^ 3)),
              timestamp := some env.timestamp, levels := some lvls,
              properties := some (collectProps env.slide.props),
              thumbnail_generated := some false,
              format := some (match df with
                | some f => if f = "" then "Unknown" else f
                | none => "Unknown"),
              level_count := some n, dimensions_level0 := some d0,
              downsamples := some ds, thumbnail := none, thumbnail_size := none,
              processing_time := some (pyRound2 env.elapsed) }, ?_, by simp⟩
    rw [midStep]
    simp only [bind, Except.bind, hdf, hn, hd, hds, hd0, buildLevels, hlv, hsel, hth,
      pure, Except.pure]
    cases df <;> simp
  have hE : analyze_wsiAux env m = (Except.ok R, ⟨true, true, 1⟩) := by
    rw [analyze_wsiAux, if_neg (by simp [hp]),
      if_neg (fun hq => hz ((size_cond_iff _).mp hq)), ho, hmid, hcl]
  have hA : analyze_wsi env m = R := by rw [analyze_wsi, hE]
  rw [hA]
  exact hRf

/-- Witness for C8 on the environment whose region reads fail. -/
theorem analyze_wsi_preview_failure_nonfatal_witness :
    readFailEnv.pathExists = true ∧
    ((analyze_wsi readFailEnv 800).success = true ∧
     (analyze_wsi readFailEnv 800).thumbnail_generated = some false ∧
     (analyze_wsi readFailEnv 800).thumbnail = none ∧
     (analyze_wsi readFailEnv 800).thumbnail_size = none ∧
     (analyze_wsi readFailEnv 800).levels.isSome ∧
     (analyze_wsi readFailEnv 800).properties =
       some (collectProps readFailEnv.slide.props) ∧
     (analyze_wsi readFailEnv 800).filename = some (basename readFailEnv.path) ∧
     (analyze_wsi readFailEnv 800).file_size_gb.isSome ∧
     (analyze_wsi readFailEnv 800).level_count = some 2 ∧
     (analyze_wsi readFailEnv 800).dimensions_level0.isSome ∧
     (analyze_wsi readFailEnv 800).downsamples = some [1, 2] ∧
     (analyze_wsi readFailEnv 800).timestamp = some readFailEnv.timestamp ∧
     (analyze_wsi readFailEnv 800).processing_time.isSome) :=
  ⟨rfl,
   analyze_wsi_preview_failure_nonfatal readFailEnv 800 (some "generic-tiff") 2
     [(100, 100), (50, 50)] [1, 2] (.openSlideError "read failed")
     rfl (by decide) rfl rfl rfl rfl rfl (by decide) rfl rfl (fun i => rfl) rfl⟩

/-- C9 counterexample: the dictionary returned for a non-resolving
path contains only success and error — it has no filename, levels,
properties, thumbnail or processing-time key, refuting the claim that
every returned record carries all SlideSummary fields. -/
theorem analyze_wsi_failure_record_sparse :
    (analyze_wsi missingEnv 800).success = false ∧
    (analyze_wsi missingEnv 800).error.isSome ∧
    (analyze_wsi missingEnv 800).filename = none ∧
    (analyze_wsi missingEnv 800).levels = none ∧
    (analyze_wsi missingEnv 800).properties = none ∧
    (analyze_wsi missingEnv 800).thumbnail = none ∧
    (analyze_wsi missingEnv 800).processing_time = none := by
  decide

/-- C9 amended: success records carry filename, file size, timestamp,
levels, properties, the thumbnail-generated flag, format, level count,
level-0 dimensions, downsamples and processing time (the thumbnail and
its size are present exactly when generation succeeded, and no chosen-
level key exists at all); failure records carry only success=false and
an error string, with every other key absent. -/
theorem analyze_wsi_record_fields (env : Env) (m : Nat) :
    ((analyze_wsi env m).success = true →
      (analyze_wsi env m).error = none ∧
      (analyze_wsi env m).filename.isSome ∧ (analyze_wsi env m).file_size_gb.isSome ∧
      (analyze_wsi env m).timestamp.isSome ∧ (analyze_wsi env m).levels.isSome ∧
      (analyze_wsi env m).properties.isSome ∧
      (analyze_wsi env m).thumbnail_generated.isSome ∧
      (analyze_wsi env m).format.isSome ∧ (analyze_wsi env m).level_count.isSome ∧
      (analyze_wsi env m).dimensions_level0.isSome ∧
      (analyze_wsi env m).downsamples.isSome ∧
      (analyze_wsi env m).processing_time.isSome ∧
      ((analyze_wsi env m).thumbnail.isSome ↔
        (analyze_wsi env m).thumbnail_generated = some true)) ∧
    ((analyze_wsi env m).success = false →
      (analyze_wsi env m).error.isSome ∧
      (analyze_wsi env m).filename = none ∧ (analyze_wsi env m).levels = none ∧
      (analyze_wsi env m).properties = none ∧ (analyze_wsi env m).level_count = none ∧
      (analyze_wsi env m).thumbnail = none ∧
      (analyze_wsi env m).processing_time = none) := by
  rcases analyze_wsiAux_cases env m with ⟨hp, hE⟩ | ⟨hp, hz, hE⟩ |
    ⟨hp, hz, e, ho, hE⟩ | ⟨hp, hz, ho, hrest⟩
  · simp [analyze_wsi, hE, failRec]
  · simp [analyze_wsi, hE, failRec]
  · simp [analyze_wsi, hE, failRec]
  · rcases hrest with ⟨e, hmid, hE⟩ | ⟨r, hmid, ⟨e, hcl, hE⟩ | ⟨hcl, hE⟩⟩
    · simp [analyze_wsi, hE, failRec]
    · simp [analyze_wsi, hE, failRec]
    · obtain ⟨h1, h2, h3, h4, h5, h6, h7, h8, h9, h10, h11, h12, h13, h14, h15⟩ :=
        midStep_ok_shape env m r hmid
      have hA : analyze_wsi env m = r := by rw [analyze_wsi, hE]
      rw [hA]
      refine ⟨fun _ => ⟨h2, h3, h4, h5, h6, h7, h8, h9, h10, h11, h12, h13, h14⟩,
        fun hf => ?_⟩
      rw [h1] at hf
      exact absurd hf (by simp)

/-- Witness for C9 amended on the fully successful environment. -/
theorem analyze_wsi_record_fields_witness :
    (analyze_wsi okEnv 800).success = true ∧
    ((analyze_wsi okEnv 800).error = none ∧
     (analyze_wsi okEnv 800).filename.isSome ∧ (analyze_wsi okEnv 800).file_size_gb.isSome ∧
     (analyze_wsi okEnv 800).timestamp.isSome ∧ (analyze_wsi okEnv 800).levels.isSome ∧
     (analyze_wsi okEnv 800).properties.isSome ∧
     (analyze_wsi okEnv 800).thumbnail_generated.isSome ∧
     (analyze_wsi okEnv 800).format.isSome ∧ (analyze_wsi okEnv 800).level_count.isSome ∧
     (analyze_wsi okEnv 800).dimensions_level0.isSome ∧
     (analyze_wsi okEnv 800).downsamples.isSome ∧
     (analyze_wsi okEnv 800).processing_time.isSome ∧
     ((analyze_wsi okEnv 800).thumbnail.isSome ↔
       (analyze_wsi okEnv 800).thumbnail_generated = some true)) :=
  ⟨by simp [analyze_wsi, okEnv_eval, okEnvRec],
   (analyze_wsi_record_fields okEnv 800).1 (by simp [analyze_wsi, okEnv_eval, okEnvRec])⟩
